import Mathlib

/-!
Verification of `uuidfield/fields.py` (django-uuidfield).

The Python module defines a Django model field `UUIDField` storing UUID
values.  We shallowly embed the field's pure logic:

* Python `uuid.UUID` objects are modelled by `PyUUID` (the 128-bit integer),
  with `PyUUID.hex` (the lowercase 32-hex-digit form) and `PyUUID.bytes`
  (the big-endian 16-byte form, as a string of byte-valued characters,
  matching Python 2 where `str` is a byte string).
* Duck-typed Python values flowing through the field methods are modelled by
  `PyObj` (None, a UUID object, a string, or some other object).
* Python exceptions are modelled by `PyError`; fallible methods return
  `Except PyError _`.
* Database connections enter only through their `vendor` string; a `None`
  connection is `Option.none`.
* The nondeterministic generators `uuid.uuid1/3/4/5` are abstracted by an
  oracle `gen : GenCall → PyUUID`; `GenCall` records which generator would
  be invoked and with which arguments, so that "generation is attempted"
  is observable.
-/

namespace UUIDFieldVerif

/-- Model of the Python exceptions raised by the code under study. -/
inductive PyError where
  | assertionError (msg : String)
  | valueError (msg : String)
  | attributeError (msg : String)
  | typeError (msg : String)
  deriving DecidableEq, Repr

/-- Model of a Python `uuid.UUID` object: its 128-bit integer value
(`UUID.int` in Python). -/
structure PyUUID where
  int : Nat
  deriving DecidableEq, Repr

/-- A duck-typed Python value as seen by the field methods: `None`, a
`uuid.UUID` instance, a string, or any other object (one with neither a
`lower` method nor a `len`). -/
inductive PyObj where
  | pyNone
  | pyUUID (u : PyUUID)
  | pyStr (s : String)
  | pyOther
  deriving DecidableEq, Repr

/-- Which `uuid.uuidN` generator `_create_uuid` invokes, with its
arguments.  `uuid3`/`uuid5` receive the namespace UUID and the (arbitrary)
name object. -/
inductive GenCall where
  | uuid1 (node clock_seq : PyObj)
  | uuid3 (ns : PyUUID) (nm : PyObj)
  | uuid4
  | uuid5 (ns : PyUUID) (nm : PyObj)
  deriving DecidableEq, Repr

/-! ### Positional number systems

Big-endian digit expansions, used for both the 32-hex-digit form
(base 16) and the 16-byte form (base 256) of a UUID. -/

/-- Big-endian digit expansion with an accumulator (tail recursive so that
it also reduces efficiently). -/
def natToDigitsAux (b : Nat) : Nat → Nat → List Nat → List Nat
  | 0, _, acc => acc
  | k + 1, n, acc => natToDigitsAux b k (n / b) (n % b :: acc)

/-- The `k` base-`b` digits of `n`, most significant first (zero padded;
only the low `k` digits of `n` are kept, as in Python's `%032x` and
`.bytes`, whose inputs are below `b ^ k` anyway). -/
def natToDigits (b k n : Nat) : List Nat := natToDigitsAux b k n []

/-- Recombine a big-endian digit list into a number. -/
def digitsToNat (b : Nat) (ds : List Nat) : Nat :=
  ds.foldl (fun acc d => acc * b + d) 0

/-- The lowercase hexadecimal digit character for `n < 16`
(`0`–`9`, `a`–`f`). -/
def hexChar (n : Nat) : Char :=
  if n < 10 then Char.ofNat (48 + n) else Char.ofNat (87 + n)

/-- The value of a hexadecimal digit character, upper or lower case
(as accepted by Python's `int(s, 16)` and `binascii.unhexlify`). -/
def hexVal (c : Char) : Option Nat :=
  if 48 ≤ c.toNat ∧ c.toNat ≤ 57 then some (c.toNat - 48)
  else if 97 ≤ c.toNat ∧ c.toNat ≤ 102 then some (c.toNat - 87)
  else if 65 ≤ c.toNat ∧ c.toNat ≤ 70 then some (c.toNat - 55)
  else none

/-- Read a big-endian hex digit string with accumulator; `none` on the
first non-hex character. -/
def parseHexAcc : List Char → Nat → Option Nat
  | [], acc => some acc
  | c :: cs, acc =>
    match hexVal c with
    | some d => parseHexAcc cs (acc * 16 + d)
    | none => none

/-- The number denoted by a big-endian hex digit string, or `none` if some
character is not a hex digit. -/
def parseHexNat (cs : List Char) : Option Nat :=
  parseHexAcc cs 0

/-! ### The Python `uuid` standard-library surface used by the code -/

/-- Python `UUID.hex`: the 32-character lowercase hexadecimal form (no
dashes) of the 128-bit value. -/
def PyUUID.hex (u : PyUUID) : String :=
  String.mk ((natToDigits 16 32 u.int).map hexChar)

/-- Python `UUID.bytes`: the 16 raw bytes of the value, big endian, as a
Python 2 `str` (each character is one byte). -/
def PyUUID.bytes (u : PyUUID) : String :=
  String.mk ((natToDigits 256 16 u.int).map Char.ofNat)

/-- Model of Python `uuid.UUID(bytes=value)`: requires exactly 16 bytes and
assembles them big endian into the 128-bit value; otherwise raises
`ValueError`. -/
def uuidFromBytes (s : String) : Except PyError PyUUID :=
  if s.length = 16 then
    .ok ⟨digitsToNat 256 (s.data.map Char.toNat)⟩
  else
    .error (.valueError "bytes is not a 16-char string")

/-- Model of Python `uuid.UUID(value)` on a string: dash separators are
removed, and the remainder must be exactly 32 hexadecimal digits (either
case); otherwise `ValueError`.  (Python also strips an optional
`urn:uuid:` prefix and surrounding braces, which no caller in this module
produces; plain dashed/undashed hex inputs are modelled exactly.) -/
def uuidFromString (s : String) : Except PyError PyUUID :=
  let hex := String.mk (s.data.filter (fun c => c ≠ '-'))
  if hex.length = 32 then
    match parseHexNat hex.data with
    | some n => .ok ⟨n⟩
    | none => .error (.valueError "badly formed hexadecimal UUID string")
  else
    .error (.valueError "badly formed hexadecimal UUID string")

/-- Model of Python 2 `binascii.unhexlify`: the input must be an
even-length string of hexadecimal digits (either case); each digit pair
becomes one byte of the output, else `TypeError` is raised. -/
def unhexlify : List Char → Except PyError (List Char)
  | [] => .ok []
  | [_] => .error (.typeError "Odd-length string")
  | c1 :: c2 :: rest =>
    match hexVal c1, hexVal c2 with
    | some d1, some d2 =>
      match unhexlify rest with
      | .ok bs => .ok (Char.ofNat (d1 * 16 + d2) :: bs)
      | .error e => .error e
    | _, _ => .error (.typeError "Non-hexadecimal digit found")

/-- Python's `needle in hay` substring test for strings. -/
def strIn (needle hay : String) : Bool :=
  strInAux needle.data hay.data
where
  strInAux (nd : List Char) : List Char → Bool
    | [] => nd.isEmpty
    | c :: cs => List.isPrefixOf nd (c :: cs) || strInAux nd cs

/-! ### The `UUIDField` class -/

/-- The state of a constructed `UUIDField` instance.  Attributes that
`__init__` assigns only for certain versions (`node`/`clock_seq` for
version 1, `namespace`/`name` for versions 3 and 5) are `Option`s,
`none` meaning the attribute was never set.  `max_length`, `editable`,
`blank` and `unique` are the keyword arguments passed up to the Django
`Field` base constructor. -/
structure UUIDField where
  version : Nat
  auto : Bool
  node : Option PyObj
  clock_seq : Option PyObj
  «namespace» : Option PyObj
  name : Option PyObj
  max_length : Nat
  editable : Bool
  blank : Bool
  unique : Bool
  deriving DecidableEq, Repr

/-- `UUIDField.__init__(version, node, clock_seq, namespace, name, auto,
**kwargs)`.  The `kw_*` arguments model the caller's `editable`, `blank`
and `unique` keyword arguments (Django's defaults are
`editable=True, blank=False, unique=False`); `kw_max_length` models a
caller-supplied `max_length`, which the code unconditionally overwrites
with 32.  The leading `assert` raises `AssertionError` for an unsupported
version. -/
def UUIDField.init (version : Nat) (node clock_seq ns nm : PyObj) (auto : Bool)
    (kw_max_length : Option Nat) (kw_editable kw_blank kw_unique : Bool) :
    Except PyError UUIDField :=
  if version = 1 ∨ version = 3 ∨ version = 4 ∨ version = 5 then
    .ok
      { version := version
        auto := auto
        node := if version = 1 then some node else none
        clock_seq := if version = 1 then some clock_seq else none
        «namespace» := if version = 3 ∨ version = 5 then some ns else none
        name := if version = 3 ∨ version = 5 then some nm else none
        max_length := 32
        editable := if auto then false else kw_editable
        blank := if auto then true else kw_blank
        unique := if auto then true else kw_unique }
  else
    .error (.assertionError
      ("UUID version " ++ toString version ++ " is not supported."))

/-- `UUIDField._create_uuid`.  The generator functions `uuid.uuidN` are
abstracted by the oracle `gen`; a `.ok` result means the validation code
fell through and generation was attempted.  The body mirrors the source:
for versions 3/5 a local `error` is initialised to `None` and never
reassigned (only `error_attr` is computed), so the `if error is not None`
test can never fire; the `isinstance(self.namespace, uuid.UUID)` test
then raises `ValueError` for any namespace that is not a UUID object. -/
def UUIDField._create_uuid (self : UUIDField) (gen : GenCall → PyUUID) :
    Except PyError PyUUID :=
  if self.version = 1 then
    match self.node, self.clock_seq with
    | some nd, some cs => .ok (gen (.uuid1 nd cs))
    | _, _ => .error (.attributeError "node")
  else if self.version = 3 ∨ self.version = 5 then
    match self.«namespace», self.name with
    | some ns, some nm =>
      let error : Option String := none
      let error_attr : Option String :=
        if nm = .pyNone then some "name"
        else if ns = .pyNone then some "namespace"
        else none
      if error.isSome then
        .error (.valueError
          ("The " ++ error_attr.getD "" ++ " parameter of UUIDField needs to be set."))
      else
        match ns with
        | .pyUUID nsu =>
          .ok (gen (if self.version = 3 then .uuid3 nsu nm else .uuid5 nsu nm))
        | _ =>
          .error (.valueError
            "The name parameter of UUIDField must be an UUID instance.")
    | _, _ => .error (.attributeError "namespace")
  else
    .ok (gen .uuid4)

/-- `UUIDField.db_type(connection)`: `'uuid'` when `'postgres'` occurs in
the connection's vendor string, `'binary(16)'` when `'mysql'` does,
otherwise `'char(%s)' % self.max_length`.  A `None` connection falls
through to the character type. -/
def UUIDField.db_type (self : UUIDField) (connection : Option String) : String :=
  match connection with
  | some vendor =>
    if strIn "postgres" vendor then "uuid"
    else if strIn "mysql" vendor then "binary(16)"
    else "char(" ++ toString self.max_length ++ ")"
  | none => "char(" ++ toString self.max_length ++ ")"

/-- `UUIDField._db_is_binary(con)`. -/
def UUIDField._db_is_binary (self : UUIDField) (con : Option String) : Bool :=
  self.db_type con == "binary(16)"

/-- Python truthiness of the modelled values (`not value`): `None` and the
empty string are falsy; `uuid.UUID` instances define neither `__nonzero__`
nor `__len__`, so they are always truthy. -/
def truthy : PyObj → Bool
  | .pyNone => false
  | .pyStr s => s ≠ ""
  | .pyUUID _ => true
  | .pyOther => true

/-- The in-memory model record as `pre_save` sees it: the field's
attribute, `none` when the attribute is absent (`getattr` with default
`None`). -/
structure ModelInstance where
  attval : Option PyObj
  deriving DecidableEq, Repr

/-- `UUIDField.pre_save(model_instance, add)`: reads the attribute (with
default `None`); when `auto` holds, this is an insert, and the value is
falsy, generates a UUID, stores the UUID object on the record and returns
its `hex` string; otherwise returns the current value with the record
untouched.  The result pairs the returned value with the (possibly
updated) record. -/
def UUIDField.pre_save (self : UUIDField) (gen : GenCall → PyUUID)
    (model_instance : ModelInstance) (add : Bool) :
    Except PyError (PyObj × ModelInstance) :=
  let value := model_instance.attval.getD .pyNone
  if self.auto && add && !(truthy value) then
    match self._create_uuid gen with
    | .ok u => .ok (.pyStr u.hex, { attval := some (.pyUUID u) })
    | .error e => .error e
  else
    .ok (value, model_instance)

/-- `UUIDField.get_db_prep_value(value, connection)`: a `uuid.UUID` value
yields `value.bytes` for a binary backend and `value.hex` otherwise.  Any
other value is treated as a string: the bare statement `value.lower()` is
evaluated for its (discarded) result — raising `AttributeError` when the
value has no `lower` method, i.e. is `None` or a non-string —, dashes are
removed, and the result is `unhexlify`d for a binary backend or returned
as is. -/
def UUIDField.get_db_prep_value (self : UUIDField) (value : PyObj)
    (connection : Option String) : Except PyError String :=
  let binary := self._db_is_binary connection
  match value with
  | .pyUUID u => if binary then .ok u.bytes else .ok u.hex
  | .pyStr s =>
    let value := String.mk (s.data.filter (fun c => c ≠ '-'))
    if binary then
      match unhexlify value.data with
      | .ok bs => .ok (String.mk bs)
      | .error e => .error e
    else
      .ok value
  | _ => .error (.attributeError "lower")

/-- `UUIDField.to_python(value)`: falsy input gives `None`; a `uuid.UUID`
passes through; a 16-character value is decoded as raw binary; anything
else is parsed as a (dashed or undashed) hexadecimal UUID string.  A
value that is neither `None`, a UUID nor a string reaches `len(value)`
and raises `TypeError`. -/
def UUIDField.to_python (_self : UUIDField) (value : PyObj) :
    Except PyError PyObj :=
  match value with
  | .pyNone => .ok .pyNone
  | .pyUUID u => .ok (.pyUUID u)
  | .pyStr s =>
    if s = "" then .ok .pyNone
    else if s.length = 16 then
      match uuidFromBytes s with
      | .ok u => .ok (.pyUUID u)
      | .error e => .error e
    else
      match uuidFromString s with
      | .ok u => .ok (.pyUUID u)
      | .error e => .error e
  | .pyOther => .error (.typeError "object of type has no len()")

/-- Spec-side well-formedness of a hexadecimal UUID string ("valid
hexadecimal-UUID syntax"): after removing dash separators, exactly 32
characters remain and all of them are hexadecimal digits. -/
def isValidHexUUID (s : String) : Bool :=
  ((s.data.filter (fun c => c ≠ '-')).length == 32) &&
    (s.data.filter (fun c => c ≠ '-')).all (fun c => (hexVal c).isSome)

/-! ### Concrete instances used as test inputs -/

/-- A version-4 field constructed with Django's default keyword arguments
(`editable=True, blank=False, unique=False`). -/
def samplePlainField : UUIDField :=
  { version := 4, auto := false, node := none, clock_seq := none,
    «namespace» := none, name := none, max_length := 32,
    editable := true, blank := false, unique := false }

/-- A version-4 field with `auto=True`. -/
def sampleAutoField : UUIDField :=
  { samplePlainField with
    auto := true
    editable := false
    blank := true
    unique := true }

/-- The RFC 4122 DNS namespace UUID (`uuid.NAMESPACE_DNS`). -/
def dnsNamespace : PyUUID := ⟨0x6ba7b8109dad11d180b400c04fd430c8⟩

/-- A version-3 field whose `namespace` is a proper UUID object but whose
`name` was left at its default `None`. -/
def fieldV3MissingName : UUIDField :=
  { version := 3, auto := false, node := none, clock_seq := none,
    «namespace» := some (.pyUUID dnsNamespace), name := some .pyNone,
    max_length := 32, editable := true, blank := false, unique := false }

/-- A version-3 field whose `namespace` was left at its default `None`. -/
def fieldV3MissingNs : UUIDField :=
  { fieldV3MissingName with
    «namespace» := some .pyNone
    name := some (.pyStr "example") }

/-- A version-3 field whose `namespace` is set but is a string, not a UUID
object. -/
def fieldV3BadNs : UUIDField :=
  { fieldV3MissingName with
    «namespace» := some (.pyStr "6ba7b810-9dad-11d1-80b4-00c04fd430c8")
    name := some (.pyStr "example") }

/-- A fixed generation oracle, for concrete instantiations. -/
def genConst : GenCall → PyUUID := fun _ => ⟨0x1234⟩

/-! ### Lemmas about digit expansions -/

theorem natToDigitsAux_acc (b : Nat) :
    ∀ k n acc, natToDigitsAux b k n acc = natToDigitsAux b k n [] ++ acc := by
  intro k
  induction k with
  | zero => intro n acc; rfl
  | succ k ih =>
    intro n acc
    show natToDigitsAux b k (n / b) (n % b :: acc)
      = natToDigitsAux b k (n / b) (n % b :: []) ++ acc
    rw [ih (n / b) (n % b :: acc), ih (n / b) (n % b :: []), List.append_assoc]
    rfl

theorem natToDigits_zero (b n : Nat) : natToDigits b 0 n = [] := rfl

theorem natToDigits_succ (b k n : Nat) :
    natToDigits b (k + 1) n = natToDigits b k (n / b) ++ [n % b] := by
  show natToDigitsAux b k (n / b) (n % b :: []) = natToDigitsAux b k (n / b) [] ++ [n % b]
  exact natToDigitsAux_acc b k (n / b) (n % b :: [])

theorem natToDigits_length (b k : Nat) : ∀ n, (natToDigits b k n).length = k := by
  induction k with
  | zero => intro n; rfl
  | succ k ih => intro n; rw [natToDigits_succ]; simp [ih]

theorem natToDigits_lt (b : Nat) (hb : 0 < b) (k : Nat) :
    ∀ n, ∀ d ∈ natToDigits b k n, d < b := by
  induction k with
  | zero => intro n d hd; simp [natToDigits_zero] at hd
  | succ k ih =>
    intro n d hd
    rw [natToDigits_succ] at hd
    simp only [List.mem_append, List.mem_singleton] at hd
    rcases hd with h | h
    · exact ih _ d h
    · subst h; exact Nat.mod_lt _ hb

/-- The low digit of `n % b ^ (k + 1)` splits off:
`n % b ^ (k + 1) = (n / b % b ^ k) * b + n % b`. -/
theorem mod_base_pow_succ (b : Nat) (hb : 0 < b) (k n : Nat) :
    n % b ^ (k + 1) = n / b % b ^ k * b + n % b := by
  have hB : 0 < b ^ k := Nat.pos_pow_of_pos k hb
  have h1 : n / b % b ^ k < b ^ k := Nat.mod_lt _ hB
  have h2 : n % b < b := Nat.mod_lt _ hb
  have hlt : n / b % b ^ k * b + n % b < b ^ (k + 1) := by
    rw [pow_succ]
    calc n / b % b ^ k * b + n % b
        < n / b % b ^ k * b + b := Nat.add_lt_add_left h2 _
      _ = (n / b % b ^ k + 1) * b := (Nat.succ_mul _ b).symm
      _ ≤ b ^ k * b := Nat.mul_le_mul_right b h1
  have hn : b ^ (k + 1) * (n / b / b ^ k) + (n / b % b ^ k * b + n % b) = n := by
    have e2 : b ^ k * (n / b / b ^ k) + n / b % b ^ k = n / b :=
      Nat.div_add_mod (n / b) (b ^ k)
    have e1 : b * (n / b) + n % b = n := Nat.div_add_mod n b
    calc b ^ (k + 1) * (n / b / b ^ k) + (n / b % b ^ k * b + n % b)
        = b * (b ^ k * (n / b / b ^ k) + n / b % b ^ k) + n % b := by ring
      _ = b * (n / b) + n % b := by rw [e2]
      _ = n := e1
  conv_lhs => rw [← hn]
  rw [Nat.mul_add_mod]
  exact Nat.mod_eq_of_lt hlt

/-- Folding the digit-recombination step over the digit expansion of `n`
recovers `n` modulo `b ^ k` (shifted past an accumulator). -/
theorem foldl_natToDigits (b : Nat) (hb : 0 < b) (k : Nat) :
    ∀ n acc : Nat,
      List.foldl (fun a d => a * b + d) acc (natToDigits b k n)
        = acc * b ^ k + n % b ^ k := by
  induction k with
  | zero => intro n acc; simp [natToDigits_zero, Nat.mod_one]
  | succ k ih =>
    intro n acc
    rw [natToDigits_succ, List.foldl_append, ih]
    simp only [List.foldl_cons, List.foldl_nil]
    rw [mod_base_pow_succ b hb k n, pow_succ]
    ring

theorem digitsToNat_natToDigits (b : Nat) (hb : 0 < b) (k n : Nat)
    (h : n < b ^ k) : digitsToNat b (natToDigits b k n) = n := by
  unfold digitsToNat
  rw [foldl_natToDigits b hb k n 0, Nat.zero_mul, Nat.zero_add,
    Nat.mod_eq_of_lt h]

/-! ### Lemmas about hexadecimal characters -/

theorem hexVal_hexChar (d : Nat) (h : d < 16) : hexVal (hexChar d) = some d := by
  interval_cases d <;> decide

theorem hexChar_ne_dash (d : Nat) (h : d < 16) : hexChar d ≠ '-' := by
  interval_cases d <;> decide

/-- `hexChar` only produces lowercase hexadecimal digit characters. -/
theorem hexChar_mem_lower (d : Nat) (h : d < 16) :
    hexChar d ∈ ("0123456789abcdef").data := by
  interval_cases d <;> decide

theorem parseHexAcc_map_hexChar :
    ∀ (ds : List Nat), (∀ d ∈ ds, d < 16) → ∀ acc,
      parseHexAcc (ds.map hexChar) acc
        = some (List.foldl (fun a d => a * 16 + d) acc ds) := by
  intro ds
  induction ds with
  | nil => intro _ acc; rfl
  | cons d ds ih =>
    intro h acc
    have hd : d < 16 := h d (List.mem_cons_self d ds)
    simp only [List.map_cons, parseHexAcc, hexVal_hexChar d hd, List.foldl_cons]
    exact ih (fun x hx => h x (List.mem_cons_of_mem d hx)) (acc * 16 + d)

theorem parseHexAcc_isSome :
    ∀ (cs : List Char), (∀ c ∈ cs, (hexVal c).isSome) → ∀ acc,
      ∃ n, parseHexAcc cs acc = some n := by
  intro cs
  induction cs with
  | nil => intro _ acc; exact ⟨acc, rfl⟩
  | cons c cs ih =>
    intro h acc
    have hc : (hexVal c).isSome := h c (List.mem_cons_self c cs)
    obtain ⟨d, hd⟩ := Option.isSome_iff_exists.mp hc
    simp only [parseHexAcc, hd]
    exact ih (fun x hx => h x (List.mem_cons_of_mem c hx)) (acc * 16 + d)

theorem parseHexAcc_eq_none :
    ∀ (cs : List Char), (∃ c ∈ cs, hexVal c = none) → ∀ acc,
      parseHexAcc cs acc = none := by
  intro cs
  induction cs with
  | nil => intro h acc; obtain ⟨c, hc, _⟩ := h; simp at hc
  | cons c cs ih =>
    intro h acc
    obtain ⟨x, hx, hxn⟩ := h
    rcases List.mem_cons.mp hx with rfl | hx'
    · simp [parseHexAcc, hxn]
    · cases hc : hexVal c with
      | none => simp [parseHexAcc, hc]
      | some d => simp only [parseHexAcc, hc]; exact ih ⟨x, hx', hxn⟩ _

/-- Reading back the characters produced by `Char.ofNat` on byte values. -/
theorem char_toNat_ofNat_of_lt (n : Nat) (h : n < 256) :
    (Char.ofNat n).toNat = n := by
  have hv : Nat.isValidChar n := Or.inl (by omega)
  simp [Char.ofNat, hv, Char.ofNatAux, Char.toNat, UInt32.toNat,
    BitVec.toNat_ofNatLt]

theorem map_toNat_ofNat (l : List Nat) (hl : ∀ d ∈ l, d < 256) :
    l.map (fun d => (Char.ofNat d).toNat) = l := by
  induction l with
  | nil => rfl
  | cons d l ih =>
    have hd : d < 256 := hl d (List.mem_cons_self d l)
    simp only [List.map_cons, char_toNat_ofNat_of_lt d hd]
    rw [ih (fun x hx => hl x (List.mem_cons_of_mem d hx))]

/-! ### Lemmas about the UUID encodings -/

theorem PyUUID_hex_length (u : PyUUID) : u.hex.length = 32 := by
  show ((natToDigits 16 32 u.int).map hexChar).length = 32
  rw [List.length_map, natToDigits_length]

theorem PyUUID_bytes_length (u : PyUUID) : u.bytes.length = 16 := by
  show ((natToDigits 256 16 u.int).map Char.ofNat).length = 16
  rw [List.length_map, natToDigits_length]

/-- Every character of `PyUUID.hex` is a lowercase hexadecimal digit. -/
theorem PyUUID_hex_lower (u : PyUUID) :
    ∀ c ∈ u.hex.data, c ∈ ("0123456789abcdef").data := by
  intro c hc
  obtain ⟨d, hd, rfl⟩ := List.mem_map.mp hc
  exact hexChar_mem_lower d (natToDigits_lt 16 (by norm_num) 32 u.int d hd)

/-- `PyUUID.hex` contains no dash separator. -/
theorem PyUUID_hex_ne_dash (u : PyUUID) : ∀ c ∈ u.hex.data, c ≠ '-' := by
  intro c hc
  obtain ⟨d, hd, rfl⟩ := List.mem_map.mp hc
  exact hexChar_ne_dash d (natToDigits_lt 16 (by norm_num) 32 u.int d hd)

theorem parseHexNat_PyUUID_hex (u : PyUUID) (h : u.int < 2 ^ 128) :
    parseHexNat u.hex.data = some u.int := by
  have h16 : u.int < 16 ^ 32 := lt_of_lt_of_eq h (by norm_num)
  show parseHexAcc ((natToDigits 16 32 u.int).map hexChar) 0 = some u.int
  rw [parseHexAcc_map_hexChar _ (natToDigits_lt 16 (by norm_num) 32 u.int) 0]
  have : List.foldl (fun a d => a * 16 + d) 0 (natToDigits 16 32 u.int)
      = digitsToNat 16 (natToDigits 16 32 u.int) := rfl
  rw [this, digitsToNat_natToDigits 16 (by norm_num) 32 u.int h16]

theorem uuidFromBytes_PyUUID_bytes (u : PyUUID) (h : u.int < 2 ^ 128) :
    uuidFromBytes u.bytes = .ok u := by
  have h256 : u.int < 256 ^ 16 := lt_of_lt_of_eq h (by norm_num)
  unfold uuidFromBytes
  rw [if_pos (PyUUID_bytes_length u)]
  have hdata : u.bytes.data = (natToDigits 256 16 u.int).map Char.ofNat := rfl
  have hmap : u.bytes.data.map Char.toNat = natToDigits 256 16 u.int := by
    rw [hdata, List.map_map]
    exact map_toNat_ofNat _ (natToDigits_lt 256 (by norm_num) 16 u.int)
  rw [hmap, digitsToNat_natToDigits 256 (by norm_num) 16 u.int h256]

theorem uuidFromString_PyUUID_hex (u : PyUUID) (h : u.int < 2 ^ 128) :
    uuidFromString u.hex = .ok u := by
  have hfilter : u.hex.data.filter (fun c => c ≠ '-') = u.hex.data := by
    apply List.filter_eq_self.mpr
    intro c hc
    simpa using PyUUID_hex_ne_dash u c hc
  have hlen : (String.mk (u.hex.data.filter (fun c => c ≠ '-'))).length = 32 := by
    rw [hfilter]; exact PyUUID_hex_length u
  have hparse :
      parseHexNat (String.mk (u.hex.data.filter (fun c => c ≠ '-'))).data
        = some u.int := by
    show parseHexNat (u.hex.data.filter (fun c => c ≠ '-')) = some u.int
    rw [hfilter]; exact parseHexNat_PyUUID_hex u h
  simp only [uuidFromString]
  rw [if_pos hlen, hparse]

theorem PyUUID_hex_ne_empty (u : PyUUID) : u.hex ≠ "" := by
  intro he
  have := congrArg String.length he
  rw [PyUUID_hex_length] at this
  exact absurd this (by decide)

theorem PyUUID_bytes_ne_empty (u : PyUUID) : u.bytes ≠ "" := by
  intro he
  have := congrArg String.length he
  rw [PyUUID_bytes_length] at this
  exact absurd this (by decide)

/-! ### Behaviour of `uuid.UUID(value)` on well- and ill-formed strings -/

theorem uuidFromString_valid (s : String) (hv : isValidHexUUID s = true) :
    ∃ n, parseHexNat (s.data.filter (fun c => c ≠ '-')) = some n ∧
      uuidFromString s = .ok ⟨n⟩ := by
  unfold isValidHexUUID at hv
  rw [Bool.and_eq_true] at hv
  obtain ⟨hl, hall⟩ := hv
  have hl32 : (s.data.filter (fun c => c ≠ '-')).length = 32 := by
    simpa using hl
  have hallP : ∀ c ∈ s.data.filter (fun c => c ≠ '-'), (hexVal c).isSome := by
    intro c hc
    exact List.all_eq_true.mp hall c hc
  obtain ⟨n, hn⟩ := parseHexAcc_isSome _ hallP 0
  refine ⟨n, hn, ?_⟩
  simp only [uuidFromString]
  have hlen : (String.mk (s.data.filter (fun c => c ≠ '-'))).length = 32 := hl32
  rw [if_pos hlen]
  have hn' : parseHexNat (String.mk (s.data.filter (fun c => c ≠ '-'))).data
      = some n := hn
  rw [hn']

theorem uuidFromString_invalid (s : String) (hv : isValidHexUUID s = false) :
    uuidFromString s
      = .error (.valueError "badly formed hexadecimal UUID string") := by
  simp only [uuidFromString]
  by_cases hl : (String.mk (s.data.filter (fun c => c ≠ '-'))).length = 32
  · rw [if_pos hl]
    have hl' : ((s.data.filter (fun c => c ≠ '-')).length == 32) = true :=
      beq_iff_eq.mpr hl
    unfold isValidHexUUID at hv
    cases hall : (s.data.filter (fun c => c ≠ '-')).all
        (fun c => (hexVal c).isSome) with
    | true => rw [hl', hall] at hv; exact absurd hv (by decide)
    | false =>
      have hex : ∃ c ∈ s.data.filter (fun c => c ≠ '-'), hexVal c = none := by
        obtain ⟨c, hc, hcf⟩ := List.all_eq_false.mp hall
        refine ⟨c, hc, ?_⟩
        cases hvc : hexVal c with
        | none => rfl
        | some d => rw [hvc] at hcf; exact absurd rfl hcf
      have hnone := parseHexAcc_eq_none _ hex 0
      have hnone' :
          parseHexNat (String.mk (s.data.filter (fun c => c ≠ '-'))).data
            = none := hnone
      rw [hnone']
  · rw [if_neg hl]

/-! ### Behaviour of the field methods on UUID values -/

theorem get_db_prep_value_PyUUID (f : UUIDField) (conn : Option String)
    (u : PyUUID) :
    f.get_db_prep_value (.pyUUID u) conn
      = .ok (if f._db_is_binary conn then u.bytes else u.hex) := by
  simp only [UUIDField.get_db_prep_value]
  cases hb : f._db_is_binary conn <;> simp [hb]

theorem to_python_bytes (f : UUIDField) (u : PyUUID) (h : u.int < 2 ^ 128) :
    f.to_python (.pyStr u.bytes) = .ok (.pyUUID u) := by
  simp only [UUIDField.to_python]
  rw [if_neg (PyUUID_bytes_ne_empty u), if_pos (PyUUID_bytes_length u),
    uuidFromBytes_PyUUID_bytes u h]

theorem to_python_hex (f : UUIDField) (u : PyUUID) (h : u.int < 2 ^ 128) :
    f.to_python (.pyStr u.hex) = .ok (.pyUUID u) := by
  have hlen : u.hex.length ≠ 16 := by rw [PyUUID_hex_length]; decide
  simp only [UUIDField.to_python]
  rw [if_neg (PyUUID_hex_ne_empty u), if_neg hlen,
    uuidFromString_PyUUID_hex u h]

/-! ### The claims -/

/-- **C1** (refuted; the code contradicts its intended validation): on a
version-3 field whose `name` is unset (`None`) but whose `namespace` is a
proper UUID — a field the constructor happily produces — `_create_uuid`
raises no `ValueError` at all: the validation falls through (the local
`error` flag is initialised to `None` and never set) and generation is
attempted with the `None` name.  By contrast, an unset `namespace` and a
non-UUID `namespace` do raise `ValueError` (via the `isinstance` check,
albeit with a message naming the wrong parameter). -/
theorem C1_missing_name_generation_attempted :
    UUIDField.init 3 .pyNone .pyNone (.pyUUID dnsNamespace) .pyNone false none
        true false false = .ok fieldV3MissingName ∧
    (∀ gen : GenCall → PyUUID,
      fieldV3MissingName._create_uuid gen
        = .ok (gen (.uuid3 dnsNamespace .pyNone))) ∧
    (∀ gen : GenCall → PyUUID,
      fieldV3MissingNs._create_uuid gen
        = .error (.valueError
            "The name parameter of UUIDField must be an UUID instance.")) ∧
    (∀ gen : GenCall → PyUUID,
      fieldV3BadNs._create_uuid gen
        = .error (.valueError
            "The name parameter of UUIDField must be an UUID instance.")) :=
  ⟨rfl, fun _ => rfl, fun _ => rfl, fun _ => rfl⟩

/-- **C2**: for every UUID value and every backend connection, outbound
conversion followed by inbound conversion returns the original UUID value
object. -/
theorem C2_round_trip (f : UUIDField) (conn : Option String) (u : PyUUID)
    (h : u.int < 2 ^ 128) :
    (f.get_db_prep_value (.pyUUID u) conn).bind
      (fun s => f.to_python (.pyStr s)) = .ok (.pyUUID u) := by
  rw [get_db_prep_value_PyUUID]
  cases hb : f._db_is_binary conn
  · show f.to_python (.pyStr u.hex) = .ok (.pyUUID u)
    exact to_python_hex f u h
  · show f.to_python (.pyStr u.bytes) = .ok (.pyUUID u)
    exact to_python_bytes f u h

theorem C2_round_trip_witness :
    ((0xdeadbeef : Nat) < 2 ^ 128 ∧
      (samplePlainField.get_db_prep_value (.pyUUID ⟨0xdeadbeef⟩)
          (some "mysql")).bind
        (fun s => samplePlainField.to_python (.pyStr s))
        = .ok (.pyUUID ⟨0xdeadbeef⟩)) ∧
    (samplePlainField.get_db_prep_value (.pyUUID ⟨0xdeadbeef⟩)
        (some "sqlite3")).bind
      (fun s => samplePlainField.to_python (.pyStr s))
      = .ok (.pyUUID ⟨0xdeadbeef⟩) :=
  ⟨⟨by decide,
      C2_round_trip samplePlainField (some "mysql") ⟨0xdeadbeef⟩ (by decide)⟩,
    C2_round_trip samplePlainField (some "sqlite3") ⟨0xdeadbeef⟩ (by decide)⟩

/-- **C3** (refuted; the code contradicts its own dead `value.lower()`
statement): textual inputs are not lowercased — only dashes are removed —
so the dashed uppercase and dashed lowercase spellings of the same UUID
are stored as different values on a character-string backend. -/
theorem C3_uppercase_not_normalized :
    samplePlainField.get_db_prep_value
        (.pyStr "ABCDEF00-1234-5678-9ABC-DEF012345678") (some "sqlite3")
      = .ok "ABCDEF00123456789ABCDEF012345678" ∧
    samplePlainField.get_db_prep_value
        (.pyStr "abcdef00-1234-5678-9abc-def012345678") (some "sqlite3")
      = .ok "abcdef00123456789abcdef012345678" ∧
    ("ABCDEF00123456789ABCDEF012345678" : String)
      ≠ "abcdef00123456789abcdef012345678" :=
  ⟨rfl, rfl, by decide⟩

/-- **C4**: a value that is already a UUID object is encoded as its raw
16 bytes on a binary backend and as its 32-character lowercase dash-free
hexadecimal string otherwise. -/
theorem C4_uuid_object_encoding (f : UUIDField) (conn : Option String)
    (u : PyUUID) :
    f.get_db_prep_value (.pyUUID u) conn
      = .ok (if f._db_is_binary conn then u.bytes else u.hex) ∧
    u.bytes.length = 16 ∧
    u.hex.length = 32 ∧
    (∀ c ∈ u.hex.data, c ∈ ("0123456789abcdef").data) ∧
    (∀ c ∈ u.hex.data, c ≠ '-') :=
  ⟨get_db_prep_value_PyUUID f conn u, PyUUID_bytes_length u,
    PyUUID_hex_length u, PyUUID_hex_lower u, PyUUID_hex_ne_dash u⟩

theorem C4_uuid_object_encoding_witness :
    samplePlainField.get_db_prep_value (.pyUUID ⟨0xdeadbeef⟩) (some "mysql")
      = .ok (if samplePlainField._db_is_binary (some "mysql")
          then (PyUUID.mk 0xdeadbeef).bytes else (PyUUID.mk 0xdeadbeef).hex) ∧
    (PyUUID.mk 0xdeadbeef).bytes.length = 16 ∧
    (PyUUID.mk 0xdeadbeef).hex.length = 32 ∧
    (∀ c ∈ (PyUUID.mk 0xdeadbeef).hex.data, c ∈ ("0123456789abcdef").data) ∧
    (∀ c ∈ (PyUUID.mk 0xdeadbeef).hex.data, c ≠ '-') :=
  C4_uuid_object_encoding samplePlainField (some "mysql") ⟨0xdeadbeef⟩

/-- **C5**: `to_python` sends every falsy input to `None`, passes UUID
objects through, decodes length-16 values as raw binary, and parses any
other value as a dashed-or-undashed hexadecimal UUID string, raising
`ValueError` exactly when that string is not valid hexadecimal-UUID
syntax. -/
theorem C5_to_python_cases (f : UUIDField) (u : PyUUID) (s16 sOther : String)
    (h16 : s16.length = 16) (hne : sOther ≠ "") (hlen : sOther.length ≠ 16) :
    f.to_python .pyNone = .ok .pyNone ∧
    f.to_python (.pyStr "") = .ok .pyNone ∧
    f.to_python (.pyUUID u) = .ok (.pyUUID u) ∧
    f.to_python (.pyStr s16)
      = .ok (.pyUUID ⟨digitsToNat 256 (s16.data.map Char.toNat)⟩) ∧
    ((isValidHexUUID sOther = true ∧
        ∃ n, parseHexNat (sOther.data.filter (fun c => c ≠ '-')) = some n ∧
          f.to_python (.pyStr sOther) = .ok (.pyUUID ⟨n⟩)) ∨
      (isValidHexUUID sOther = false ∧
        f.to_python (.pyStr sOther)
          = .error (.valueError "badly formed hexadecimal UUID string"))) := by
  refine ⟨rfl, rfl, rfl, ?_, ?_⟩
  · have hne16 : s16 ≠ "" := by
      intro he
      rw [he] at h16
      exact absurd h16 (by decide)
    simp only [UUIDField.to_python]
    rw [if_neg hne16, if_pos h16]
    simp only [uuidFromBytes]
    rw [if_pos h16]
  · cases hv : isValidHexUUID sOther with
    | true =>
      left
      obtain ⟨n, hn, hok⟩ := uuidFromString_valid sOther hv
      refine ⟨rfl, n, hn, ?_⟩
      simp only [UUIDField.to_python]
      rw [if_neg hne, if_neg hlen, hok]
    | false =>
      right
      refine ⟨rfl, ?_⟩
      simp only [UUIDField.to_python]
      rw [if_neg hne, if_neg hlen, uuidFromString_invalid sOther hv]

theorem C5_to_python_cases_witness :
    (("0123456789abcdef" : String).length = 16 ∧
      ("xyz" : String) ≠ "" ∧ ("xyz" : String).length ≠ 16) ∧
    samplePlainField.to_python (.pyStr "0123456789abcdef")
      = .ok (.pyUUID
          ⟨digitsToNat 256 (("0123456789abcdef" : String).data.map
            Char.toNat)⟩) :=
  ⟨⟨by decide, by decide, by decide⟩,
    (C5_to_python_cases samplePlainField ⟨5⟩ "0123456789abcdef" "xyz"
      (by decide) (by decide) (by decide)).2.2.2.1⟩

/-- **C6**: `db_type` is a function of the connection's vendor string
alone: a vendor containing `postgres` yields `"uuid"`, one containing
`mysql` (and not `postgres`) yields `"binary(16)"`, and every other
vendor — and a missing connection — yields `"char(32)"`. -/
theorem C6_db_type_dialect (f : UUIDField) (vp vm vo : String)
    (hml : f.max_length = 32)
    (hp : strIn "postgres" vp = true)
    (hm1 : strIn "postgres" vm = false) (hm2 : strIn "mysql" vm = true)
    (ho1 : strIn "postgres" vo = false) (ho2 : strIn "mysql" vo = false) :
    f.db_type (some vp) = "uuid" ∧
    f.db_type (some vm) = "binary(16)" ∧
    f.db_type (some vo) = "char(32)" ∧
    f.db_type none = "char(32)" := by
  refine ⟨?_, ?_, ?_, ?_⟩ <;>
    simp only [UUIDField.db_type, hml, hp, hm1, hm2, ho1, ho2] <;> rfl

theorem C6_db_type_dialect_witness :
    (samplePlainField.max_length = 32 ∧
      strIn "postgres" "postgresql" = true ∧
      strIn "postgres" "mysql" = false ∧ strIn "mysql" "mysql" = true ∧
      strIn "postgres" "sqlite3" = false ∧ strIn "mysql" "sqlite3" = false) ∧
    samplePlainField.db_type (some "postgresql") = "uuid" ∧
    samplePlainField.db_type (some "mysql") = "binary(16)" ∧
    samplePlainField.db_type (some "sqlite3") = "char(32)" ∧
    samplePlainField.db_type none = "char(32)" :=
  ⟨⟨by decide, by decide, by decide, by decide, by decide, by decide⟩,
    C6_db_type_dialect samplePlainField "postgresql" "mysql" "sqlite3"
      (by decide) (by decide) (by decide) (by decide) (by decide) (by decide)⟩

/-- **C7**: `pre_save` generates, assigns and returns the hex string only
when `auto` holds, the save is an insert, and the current value is falsy;
in every other case it returns the current value and leaves the record
untouched. -/
theorem C7_pre_save (f : UUIDField) (gen : GenCall → PyUUID)
    (i1 i2 : ModelInstance) (add2 : Bool) (u : PyUUID)
    (hauto : f.auto = true)
    (h1 : truthy (i1.attval.getD .pyNone) = false)
    (hgen : f._create_uuid gen = .ok u)
    (h2 : (f.auto && add2 && !truthy (i2.attval.getD .pyNone)) = false) :
    f.pre_save gen i1 true
      = .ok (.pyStr u.hex, { attval := some (.pyUUID u) }) ∧
    f.pre_save gen i2 add2 = .ok (i2.attval.getD .pyNone, i2) := by
  constructor
  · simp only [UUIDField.pre_save, hauto, h1, hgen]
    rfl
  · simp only [UUIDField.pre_save, h2]
    rfl

theorem C7_pre_save_witness :
    (sampleAutoField.auto = true ∧
      truthy ((none : Option PyObj).getD .pyNone) = false ∧
      sampleAutoField._create_uuid genConst = .ok ⟨0x1234⟩ ∧
      (sampleAutoField.auto && true
          && !truthy ((some (PyObj.pyUUID ⟨5⟩)).getD .pyNone)) = false) ∧
    sampleAutoField.pre_save genConst ⟨none⟩ true
      = .ok (.pyStr (PyUUID.mk 0x1234).hex,
          { attval := some (.pyUUID ⟨0x1234⟩) }) ∧
    sampleAutoField.pre_save genConst ⟨some (.pyUUID ⟨5⟩)⟩ true
      = .ok ((some (PyObj.pyUUID ⟨5⟩)).getD .pyNone,
          ⟨some (.pyUUID ⟨5⟩)⟩) :=
  ⟨⟨rfl, rfl, rfl, rfl⟩,
    C7_pre_save sampleAutoField genConst ⟨none⟩ ⟨some (.pyUUID ⟨5⟩)⟩ true
      ⟨0x1234⟩ rfl rfl rfl rfl⟩

/-- **C8**: construction succeeds exactly for versions 1, 3, 4 and 5; any
other version raises the `AssertionError` immediately. -/
theorem C8_version_check (v1 v2 : Nat) (node clock_seq ns nm : PyObj)
    (auto kwe kwb kwu : Bool) (kwml : Option Nat)
    (hgood : v1 = 1 ∨ v1 = 3 ∨ v1 = 4 ∨ v1 = 5)
    (hbad : ¬(v2 = 1 ∨ v2 = 3 ∨ v2 = 4 ∨ v2 = 5)) :
    (∃ f, UUIDField.init v1 node clock_seq ns nm auto kwml kwe kwb kwu
        = .ok f) ∧
    UUIDField.init v2 node clock_seq ns nm auto kwml kwe kwb kwu
      = .error (.assertionError
          ("UUID version " ++ toString v2 ++ " is not supported.")) := by
  constructor
  · simp only [UUIDField.init]
    rw [if_pos hgood]
    exact ⟨_, rfl⟩
  · simp only [UUIDField.init]
    rw [if_neg hbad]

theorem C8_version_check_witness :
    ((4 = 1 ∨ 4 = 3 ∨ 4 = 4 ∨ 4 = 5) ∧ ¬(2 = 1 ∨ 2 = 3 ∨ 2 = 4 ∨ 2 = 5)) ∧
    (∃ f, UUIDField.init 4 .pyNone .pyNone .pyNone .pyNone false none
        true false false = .ok f) ∧
    UUIDField.init 2 .pyNone .pyNone .pyNone .pyNone false none
        true false false
      = .error (.assertionError
          ("UUID version " ++ toString (2 : Nat) ++ " is not supported.")) :=
  ⟨⟨by decide, by decide⟩,
    C8_version_check 4 2 .pyNone .pyNone .pyNone .pyNone false true false
      false none (by decide) (by decide)⟩

/-- **C9**: every constructed field declares `max_length = 32`, and a
field constructed with `auto=True` additionally has `editable = False`,
`blank = True` and `unique = True`, whatever the caller passed. -/
theorem C9_forced_kwargs (v1 v2 : Nat)
    (node1 cs1 ns1 nm1 node2 cs2 ns2 nm2 : PyObj)
    (auto1 kwe1 kwb1 kwu1 kwe2 kwb2 kwu2 : Bool) (kwml1 kwml2 : Option Nat)
    (f1 f2 : UUIDField)
    (h1 : UUIDField.init v1 node1 cs1 ns1 nm1 auto1 kwml1 kwe1 kwb1 kwu1
        = .ok f1)
    (h2 : UUIDField.init v2 node2 cs2 ns2 nm2 true kwml2 kwe2 kwb2 kwu2
        = .ok f2) :
    f1.max_length = 32 ∧ f2.max_length = 32 ∧
    f2.editable = false ∧ f2.blank = true ∧ f2.unique = true := by
  simp only [UUIDField.init] at h1 h2
  split at h1
  · cases h1
    split at h2
    · cases h2
      exact ⟨rfl, rfl, rfl, rfl, rfl⟩
    · exact Except.noConfusion h2
  · exact Except.noConfusion h1

theorem C9_forced_kwargs_witness :
    (UUIDField.init 4 .pyNone .pyNone .pyNone .pyNone false none
        true false false = .ok samplePlainField ∧
      UUIDField.init 4 .pyNone .pyNone .pyNone .pyNone true none
        true false false = .ok sampleAutoField) ∧
    samplePlainField.max_length = 32 ∧ sampleAutoField.max_length = 32 ∧
    sampleAutoField.editable = false ∧ sampleAutoField.blank = true ∧
    sampleAutoField.unique = true :=
  ⟨⟨rfl, rfl⟩,
    C9_forced_kwargs 4 4 .pyNone .pyNone .pyNone .pyNone .pyNone .pyNone
      .pyNone .pyNone false true false false true false false none none
      samplePlainField sampleAutoField rfl rfl⟩

/-- **C10**: `get_db_prep_value` does not handle the absent value: for
every backend, both `None` and any non-UUID non-string object make it
raise (`AttributeError` at the `value.lower()` step) rather than return an
encoded value. -/
theorem C10_none_rejected (f : UUIDField) (conn : Option String) :
    f.get_db_prep_value .pyNone conn = .error (.attributeError "lower") ∧
    f.get_db_prep_value .pyOther conn = .error (.attributeError "lower") :=
  ⟨rfl, rfl⟩

end UUIDFieldVerif
